import Mathlib

/-!
Verification of the `TelescopeCalc` class from
`src/TelescopeCalc/js/telescopeCalculator.js`.

Shallow embedding conventions:
* JavaScript numbers are modelled as exact rationals `ℚ` (the spec and the
  claims speak of strictly positive real numbers; every concrete value
  appearing in the spec is rational).
* A JavaScript argument that may be `undefined` is modelled as `Option ℚ`;
  `none` is `undefined` (an omitted argument), `some x` a supplied number.
* A `throw` of `TypeError` / `RangeError` is modelled as returning
  `Except.error` with the corresponding `JsError` value carrying the
  message string of the source; normal completion is `Except.ok`.
* The class instance is the structure `TelescopeCalc`; the five JS getter
  properties are exactly the five structure projections.
-/

/-- Model of the two JavaScript exception kinds thrown by the source file:
`TypeError` (the spec calls this failure `MissingArgument`) and
`RangeError` (the spec calls this failure `OutOfRange`), each carrying its
message string. -/
inductive JsError where
  | typeError (msg : String)
  | rangeError (msg : String)
  deriving DecidableEq, Repr

/-- The spec's `MissingArgument` failure kind is the `TypeError` branch. -/
def JsError.isMissingArgument : JsError → Bool
  | .typeError _ => true
  | .rangeError _ => false

/-- The spec's `OutOfRange` failure kind is the `RangeError` branch. -/
def JsError.isOutOfRange : JsError → Bool
  | .typeError _ => false
  | .rangeError _ => true

/-- The state of a `TelescopeCalc` object: the five validated fields
(`this._telDiameter` … `this._focalReducerFactor` in the source).  The five
structure projections are the five JS getters (lines 105–123), which return
the stored fields unchanged. -/
structure TelescopeCalc where
  telDiameter : ℚ
  telFocalLength : ℚ
  epFocalLength : ℚ
  barlowFactor : ℚ
  focalReducerFactor : ℚ
  deriving DecidableEq, Repr

namespace TelescopeCalc

/-- The constructor (source lines 77–103).  The three required arguments and
the two defaulted arguments are `Option ℚ`; JS binds the default `1` exactly
when the supplied value is `undefined` (`Option.getD 1`).  The `undefined`
test on the three required arguments (line 78) precedes the five range
checks (lines 82–96), which run in source order and throw at the first
violation. -/
def create (telDiameter telFocalLength epFocalLength : Option ℚ)
    (barlowFactor focalReducerFactor : Option ℚ) :
    Except JsError TelescopeCalc :=
  match telDiameter, telFocalLength, epFocalLength with
  | some d, some f, some e =>
    let b := barlowFactor.getD 1
    let r := focalReducerFactor.getD 1
    if d ≤ 0 then
      .error (.rangeError "argument telDiameter has to be greater than 0.")
    else if f ≤ 0 then
      .error (.rangeError "argument telFocalLength has to be greater than 0.")
    else if e ≤ 0 then
      .error (.rangeError "argument epFocalLength has to be greater than 0.")
    else if b ≤ 0 then
      .error (.rangeError "argument barlowFactor has to be greater than 0.")
    else if r ≤ 0 then
      .error (.rangeError "argument focalReducerFactor has to be greater than 0.")
    else
      .ok ⟨d, f, e, b, r⟩
  | _, _, _ =>
    .error (.typeError "arguments telDiameter, telFocalLength, epFocalLength are required.")

/-- Setter `set telDiameter` (source lines 125–130): throws `RangeError` on a
non-positive value before assigning, otherwise replaces only that field. -/
def setTelDiameter (t : TelescopeCalc) (v : ℚ) : Except JsError TelescopeCalc :=
  if v ≤ 0 then .error (.rangeError "telDiameter has to be greater than 0.")
  else .ok ⟨v, t.telFocalLength, t.epFocalLength, t.barlowFactor, t.focalReducerFactor⟩

/-- Setter `set telFocalLength` (source lines 132–137). -/
def setTelFocalLength (t : TelescopeCalc) (v : ℚ) : Except JsError TelescopeCalc :=
  if v ≤ 0 then .error (.rangeError "focalLength has to be greater than 0.")
  else .ok ⟨t.telDiameter, v, t.epFocalLength, t.barlowFactor, t.focalReducerFactor⟩

/-- Setter `set epFocalLength` (source lines 139–144). -/
def setEpFocalLength (t : TelescopeCalc) (v : ℚ) : Except JsError TelescopeCalc :=
  if v ≤ 0 then .error (.rangeError "epFocalLength has to be greater than 0.")
  else .ok ⟨t.telDiameter, t.telFocalLength, v, t.barlowFactor, t.focalReducerFactor⟩

/-- Setter `set barlowFactor` (source lines 146–151). -/
def setBarlowFactor (t : TelescopeCalc) (v : ℚ) : Except JsError TelescopeCalc :=
  if v ≤ 0 then .error (.rangeError "barlowFactor has to be greater than 0.")
  else .ok ⟨t.telDiameter, t.telFocalLength, t.epFocalLength, v, t.focalReducerFactor⟩

/-- Setter `set focalReducerFactor` (source lines 153–158). -/
def setFocalReducerFactor (t : TelescopeCalc) (v : ℚ) : Except JsError TelescopeCalc :=
  if v ≤ 0 then .error (.rangeError "focalReducerFactor has to be greater than 0.")
  else .ok ⟨t.telDiameter, t.telFocalLength, t.epFocalLength, t.barlowFactor, v⟩

/-- `calcMagnification` (source lines 163–166):
`this._barlowFactor * this._telFocalLength * this._focalReducerFactor / this._epFocalLength`. -/
def calcMagnification (t : TelescopeCalc) : ℚ :=
  t.barlowFactor * t.telFocalLength * t.focalReducerFactor / t.epFocalLength

/-- `calcLowerMagnificationLimit` (source lines 171–174): `this._telDiameter / 6.0`. -/
def calcLowerMagnificationLimit (t : TelescopeCalc) : ℚ :=
  t.telDiameter / 6

/-- `calcUpperMagnificationLimit` (source lines 179–182): `2.0 * this._telDiameter`. -/
def calcUpperMagnificationLimit (t : TelescopeCalc) : ℚ :=
  2 * t.telDiameter

/-- `calcFocalRatio` (source lines 187–190):
`(this._barlowFactor * this._telFocalLength / this._telDiameter) * this._focalReducerFactor`. -/
def calcFocalRatio (t : TelescopeCalc) : ℚ :=
  t.barlowFactor * t.telFocalLength / t.telDiameter * t.focalReducerFactor

/-- `calcExitPupil` (source lines 195–198):
`this._telDiameter / this.calcMagnification()`, with the magnification
recomputed from the current fields at the time of the call. -/
def calcExitPupil (t : TelescopeCalc) : ℚ :=
  t.telDiameter / calcMagnification t

/-- `calcDawesLimit` (source lines 203–205): `116. / this._telDiameter`. -/
def calcDawesLimit (t : TelescopeCalc) : ℚ :=
  116 / t.telDiameter

/-- The class invariant stated in the spec: all five fields are strictly
positive. -/
def Valid (t : TelescopeCalc) : Prop :=
  0 < t.telDiameter ∧ 0 < t.telFocalLength ∧ 0 < t.epFocalLength ∧
    0 < t.barlowFactor ∧ 0 < t.focalReducerFactor

instance instDecidableValid (t : TelescopeCalc) : Decidable (Valid t) :=
  decidable_of_iff
    (0 < t.telDiameter ∧ 0 < t.telFocalLength ∧ 0 < t.epFocalLength ∧
      0 < t.barlowFactor ∧ 0 < t.focalReducerFactor) Iff.rfl

end TelescopeCalc

/-- One setter invocation on a live object: which setter is called and with
which new value. -/
inductive SetterOp where
  | setDiameter (v : ℚ)
  | setFocal (v : ℚ)
  | setEyepiece (v : ℚ)
  | setBarlow (v : ℚ)
  | setReducer (v : ℚ)
  deriving DecidableEq, Repr

namespace TelescopeCalc

/-- The state of the object after one setter invocation, successful or
failing: in JS a failing setter throws before any assignment, so the object
is left exactly as it was. -/
def applyOp (t : TelescopeCalc) (op : SetterOp) : TelescopeCalc :=
  match op with
  | .setDiameter v => match setTelDiameter t v with
    | .ok u => u
    | .error _ => t
  | .setFocal v => match setTelFocalLength t v with
    | .ok u => u
    | .error _ => t
  | .setEyepiece v => match setEpFocalLength t v with
    | .ok u => u
    | .error _ => t
  | .setBarlow v => match setBarlowFactor t v with
    | .ok u => u
    | .error _ => t
  | .setReducer v => match setFocalReducerFactor t v with
    | .ok u => u
    | .error _ => t

/-- The state of the object after a whole sequence of setter invocations. -/
def applyOps (t : TelescopeCalc) (ops : List SetterOp) : TelescopeCalc :=
  ops.foldl applyOp t

end TelescopeCalc

open TelescopeCalc

/-- Any object returned by a successful construction satisfies the class
invariant: the constructor throws before storing unless every one of the
five values is strictly positive. -/
theorem create_ok_valid {od ofo oeo ob orf : Option ℚ} {t : TelescopeCalc}
    (h : create od ofo oeo ob orf = .ok t) : Valid t := by
  cases od with
  | none => simp [create] at h
  | some d =>
  cases ofo with
  | none => simp [create] at h
  | some f =>
  cases oeo with
  | none => simp [create] at h
  | some e =>
  by_cases hd : d ≤ 0
  · simp [create, hd] at h
  by_cases hf : f ≤ 0
  · simp [create, hd, hf] at h
  by_cases he : e ≤ 0
  · simp [create, hd, hf, he] at h
  by_cases hb : ob.getD 1 ≤ 0
  · simp [create, hd, hf, he, hb] at h
  by_cases hr : orf.getD 1 ≤ 0
  · simp [create, hd, hf, he, hb, hr] at h
  simp [create, hd, hf, he, hb, hr] at h
  subst h
  exact ⟨not_le.mp hd, not_le.mp hf, not_le.mp he, not_le.mp hb, not_le.mp hr⟩

/-- A single setter invocation, successful or failing, preserves the class
invariant: a failing setter throws before assigning, a successful one stores
a strictly positive value. -/
theorem applyOp_valid {t : TelescopeCalc} (h : Valid t) (op : SetterOp) :
    Valid (applyOp t op) := by
  obtain ⟨hd, hf, he, hb, hr⟩ := h
  cases op with
  | setDiameter v =>
    by_cases hv : v ≤ 0
    · simpa [applyOp, setTelDiameter, hv] using ⟨hd, hf, he, hb, hr⟩
    · simpa [applyOp, setTelDiameter, hv] using ⟨not_le.mp hv, hf, he, hb, hr⟩
  | setFocal v =>
    by_cases hv : v ≤ 0
    · simpa [applyOp, setTelFocalLength, hv] using ⟨hd, hf, he, hb, hr⟩
    · simpa [applyOp, setTelFocalLength, hv] using ⟨hd, not_le.mp hv, he, hb, hr⟩
  | setEyepiece v =>
    by_cases hv : v ≤ 0
    · simpa [applyOp, setEpFocalLength, hv] using ⟨hd, hf, he, hb, hr⟩
    · simpa [applyOp, setEpFocalLength, hv] using ⟨hd, hf, not_le.mp hv, hb, hr⟩
  | setBarlow v =>
    by_cases hv : v ≤ 0
    · simpa [applyOp, setBarlowFactor, hv] using ⟨hd, hf, he, hb, hr⟩
    · simpa [applyOp, setBarlowFactor, hv] using ⟨hd, hf, he, not_le.mp hv, hr⟩
  | setReducer v =>
    by_cases hv : v ≤ 0
    · simpa [applyOp, setFocalReducerFactor, hv] using ⟨hd, hf, he, hb, hr⟩
    · simpa [applyOp, setFocalReducerFactor, hv] using ⟨hd, hf, he, hb, not_le.mp hv⟩

/-- Any sequence of setter invocations preserves the class invariant. -/
theorem applyOps_valid {t : TelescopeCalc} (h : Valid t) (ops : List SetterOp) :
    Valid (applyOps t ops) := by
  induction ops generalizing t with
  | nil => exact h
  | cons op ops ih => exact ih (applyOp_valid h op)

/-- Claim C1: for every quintuple of strictly positive rationals
`(d, f, e, b, r)`, construction succeeds and returns the object holding
exactly the supplied values; each of the five getters (the structure
projections) returns exactly the value supplied for its field; and when the
`barlowFactor` and `focalReducerFactor` arguments are omitted (`none`,
i.e. JS `undefined`), the constructed object's `barlowFactor` and
`focalReducerFactor` getters return `1`. -/
theorem C1_create_getters (d f e b r : ℚ)
    (hd : 0 < d) (hf : 0 < f) (he : 0 < e) (hb : 0 < b) (hr : 0 < r) :
    create (some d) (some f) (some e) (some b) (some r) = .ok ⟨d, f, e, b, r⟩ ∧
    (TelescopeCalc.mk d f e b r).telDiameter = d ∧
    (TelescopeCalc.mk d f e b r).telFocalLength = f ∧
    (TelescopeCalc.mk d f e b r).epFocalLength = e ∧
    (TelescopeCalc.mk d f e b r).barlowFactor = b ∧
    (TelescopeCalc.mk d f e b r).focalReducerFactor = r ∧
    create (some d) (some f) (some e) none none = .ok ⟨d, f, e, 1, 1⟩ := by
  refine ⟨?_, rfl, rfl, rfl, rfl, rfl, ?_⟩ <;>
    norm_num [create, not_le.mpr hd, not_le.mpr hf, not_le.mpr he, not_le.mpr hb, not_le.mpr hr]

theorem C1_witness :
    create (some 200) (some 1000) (some 10) (some 2) (some (1/2)) =
      .ok ⟨200, 1000, 10, 2, 1/2⟩ :=
  (C1_create_getters 200 1000 10 2 (1/2) (by norm_num) (by norm_num) (by norm_num)
    (by norm_num) (by norm_num)).1

/-- Claim C2: construction fails with `MissingArgument` (a `TypeError`)
whenever any of the three required arguments is absent (`none`), whatever
the remaining arguments hold, so this check precedes all range checks;
otherwise it fails with `OutOfRange` (a `RangeError`) whenever any of the
five resulting values (the two factors after defaulting to `1`) is `≤ 0`,
the fields being checked in the order aperture, focal length, eyepiece
focal length, barlow, focal reducer, with the first failing check
determining the reported violation. -/
theorem C2_create_failure_order (d f e : ℚ) (ob orf : Option ℚ) :
    (∀ od ofo oeo : Option ℚ, od = none ∨ ofo = none ∨ oeo = none →
      create od ofo oeo ob orf =
        .error (.typeError "arguments telDiameter, telFocalLength, epFocalLength are required.")) ∧
    JsError.isMissingArgument
      (.typeError "arguments telDiameter, telFocalLength, epFocalLength are required.") = true ∧
    (d ≤ 0 → create (some d) (some f) (some e) ob orf =
      .error (.rangeError "argument telDiameter has to be greater than 0.")) ∧
    (0 < d → f ≤ 0 → create (some d) (some f) (some e) ob orf =
      .error (.rangeError "argument telFocalLength has to be greater than 0.")) ∧
    (0 < d → 0 < f → e ≤ 0 → create (some d) (some f) (some e) ob orf =
      .error (.rangeError "argument epFocalLength has to be greater than 0.")) ∧
    (0 < d → 0 < f → 0 < e → ob.getD 1 ≤ 0 → create (some d) (some f) (some e) ob orf =
      .error (.rangeError "argument barlowFactor has to be greater than 0.")) ∧
    (0 < d → 0 < f → 0 < e → 0 < ob.getD 1 → orf.getD 1 ≤ 0 →
      create (some d) (some f) (some e) ob orf =
        .error (.rangeError "argument focalReducerFactor has to be greater than 0.")) ∧
    (∀ m : String, JsError.isOutOfRange (.rangeError m) = true) := by
  refine ⟨?_, rfl, ?_, ?_, ?_, ?_, ?_, fun m => rfl⟩
  · intro od ofo oeo h
    cases od <;> cases ofo <;> cases oeo <;> simp_all [create]
  · intro hd
    simp [create, hd]
  · intro hd hf
    simp [create, not_le.mpr hd, hf]
  · intro hd hf he
    simp [create, not_le.mpr hd, not_le.mpr hf, he]
  · intro hd hf he hb
    simp [create, not_le.mpr hd, not_le.mpr hf, not_le.mpr he, hb]
  · intro hd hf he hb hr
    simp [create, not_le.mpr hd, not_le.mpr hf, not_le.mpr he, not_le.mpr hb, hr]

theorem C2_witness :
    create none (some (1000:ℚ)) (some 10) none none =
      .error (.typeError "arguments telDiameter, telFocalLength, epFocalLength are required.") ∧
    create (some (200:ℚ)) (some 1000) (some 10) (some (-2)) none =
      .error (.rangeError "argument barlowFactor has to be greater than 0.") :=
  ⟨(C2_create_failure_order (0:ℚ) 0 0 none none).1 none (some 1000) (some 10) (Or.inl rfl),
   (C2_create_failure_order (200:ℚ) 1000 10 (some (-2)) none).2.2.2.2.2.1
     (by norm_num) (by norm_num) (by norm_num) (by decide)⟩

/-- Claim C3: every object obtained by a successful construction satisfies
the invariant that all five fields are strictly positive, and the invariant
is preserved by every sequence of setter invocations, successful or
failing (a failing setter throws before assigning and leaves the object
unchanged). -/
theorem C3_invariant_preserved (od ofo oeo ob orf : Option ℚ) (t : TelescopeCalc)
    (h : create od ofo oeo ob orf = .ok t) (ops : List SetterOp) :
    Valid t ∧ Valid (applyOps t ops) :=
  ⟨create_ok_valid h, applyOps_valid (create_ok_valid h) ops⟩

theorem C3_witness :
    Valid (⟨200, 1000, 10, 1, 1⟩ : TelescopeCalc) ∧
    Valid (applyOps ⟨200, 1000, 10, 1, 1⟩
      [SetterOp.setDiameter 50, SetterOp.setBarlow (-1), SetterOp.setEyepiece 25]) :=
  C3_invariant_preserved (some 200) (some 1000) (some 10) none none ⟨200, 1000, 10, 1, 1⟩ rfl
    [SetterOp.setDiameter 50, SetterOp.setBarlow (-1), SetterOp.setEyepiece 25]

/-- Claim C4: for each of the five setters and every starting state (in
particular every valid one): if the new value is `≤ 0` the setter fails
with `OutOfRange` (`RangeError`) and the object is left with all five
fields unchanged; if the new value is `> 0` the setter succeeds and
replaces only its own field, leaving the other four unchanged and
unexamined (the equations hold for arbitrary states, so no other field is
re-validated); and a replacement is immediately visible to subsequent
derived computations: replacing `telDiameter` and then reading the Dawes
limit yields `116 / v` for the new value `v`, with no caching lag. -/
theorem C4_setter_frame (t : TelescopeCalc) (v : ℚ) :
    (v ≤ 0 →
      setTelDiameter t v = .error (.rangeError "telDiameter has to be greater than 0.") ∧
      applyOp t (.setDiameter v) = t) ∧
    (0 < v →
      setTelDiameter t v =
        .ok ⟨v, t.telFocalLength, t.epFocalLength, t.barlowFactor, t.focalReducerFactor⟩ ∧
      applyOp t (.setDiameter v) =
        ⟨v, t.telFocalLength, t.epFocalLength, t.barlowFactor, t.focalReducerFactor⟩ ∧
      calcDawesLimit (applyOp t (.setDiameter v)) = 116 / v) ∧
    (v ≤ 0 →
      setTelFocalLength t v = .error (.rangeError "focalLength has to be greater than 0.") ∧
      applyOp t (.setFocal v) = t) ∧
    (0 < v →
      setTelFocalLength t v =
        .ok ⟨t.telDiameter, v, t.epFocalLength, t.barlowFactor, t.focalReducerFactor⟩) ∧
    (v ≤ 0 →
      setEpFocalLength t v = .error (.rangeError "epFocalLength has to be greater than 0.") ∧
      applyOp t (.setEyepiece v) = t) ∧
    (0 < v →
      setEpFocalLength t v =
        .ok ⟨t.telDiameter, t.telFocalLength, v, t.barlowFactor, t.focalReducerFactor⟩) ∧
    (v ≤ 0 →
      setBarlowFactor t v = .error (.rangeError "barlowFactor has to be greater than 0.") ∧
      applyOp t (.setBarlow v) = t) ∧
    (0 < v →
      setBarlowFactor t v =
        .ok ⟨t.telDiameter, t.telFocalLength, t.epFocalLength, v, t.focalReducerFactor⟩) ∧
    (v ≤ 0 →
      setFocalReducerFactor t v =
        .error (.rangeError "focalReducerFactor has to be greater than 0.") ∧
      applyOp t (.setReducer v) = t) ∧
    (0 < v →
      setFocalReducerFactor t v =
        .ok ⟨t.telDiameter, t.telFocalLength, t.epFocalLength, t.barlowFactor, v⟩) := by
  refine ⟨fun hv => ?_, fun hv => ?_, fun hv => ?_, fun hv => ?_, fun hv => ?_,
    fun hv => ?_, fun hv => ?_, fun hv => ?_, fun hv => ?_, fun hv => ?_⟩
  · exact ⟨by simp [setTelDiameter, hv], by simp [applyOp, setTelDiameter, hv]⟩
  · exact ⟨by simp [setTelDiameter, not_le.mpr hv],
      by simp [applyOp, setTelDiameter, not_le.mpr hv],
      by simp [applyOp, setTelDiameter, not_le.mpr hv, calcDawesLimit]⟩
  · exact ⟨by simp [setTelFocalLength, hv], by simp [applyOp, setTelFocalLength, hv]⟩
  · simp [setTelFocalLength, not_le.mpr hv]
  · exact ⟨by simp [setEpFocalLength, hv], by simp [applyOp, setEpFocalLength, hv]⟩
  · simp [setEpFocalLength, not_le.mpr hv]
  · exact ⟨by simp [setBarlowFactor, hv], by simp [applyOp, setBarlowFactor, hv]⟩
  · simp [setBarlowFactor, not_le.mpr hv]
  · exact ⟨by simp [setFocalReducerFactor, hv], by simp [applyOp, setFocalReducerFactor, hv]⟩
  · simp [setFocalReducerFactor, not_le.mpr hv]

theorem C4_witness :
    setTelDiameter ⟨200, 1000, 10, 1, 1⟩ (-1) =
      .error (.rangeError "telDiameter has to be greater than 0.") ∧
    calcDawesLimit (applyOp ⟨200, 1000, 10, 1, 1⟩ (.setDiameter 58)) = 2 :=
  ⟨((C4_setter_frame ⟨200, 1000, 10, 1, 1⟩ (-1)).1 (by norm_num)).1,
   (((C4_setter_frame ⟨200, 1000, 10, 1, 1⟩ 58).2.1 (by norm_num)).2.2).trans (by norm_num)⟩

/-- Claim C5: for every valid state, `calcMagnification` returns
`barlowFactor * telFocalLength * focalReducerFactor / epFocalLength`
(this is its definition unfolded on the current fields), and in particular
for `d = 200`, `f = 1000`, `e = 10`, `b = 1`, `r = 1` it returns
exactly `100`. -/
theorem C5_magnification (t : TelescopeCalc) (_h : Valid t) :
    calcMagnification t =
      t.barlowFactor * t.telFocalLength * t.focalReducerFactor / t.epFocalLength ∧
    calcMagnification ⟨200, 1000, 10, 1, 1⟩ = 100 :=
  ⟨rfl, by norm_num [calcMagnification]⟩

theorem C5_witness : calcMagnification ⟨200, 1000, 10, 1, 1⟩ = 100 :=
  (C5_magnification ⟨200, 1000, 10, 1, 1⟩ (by decide)).2

/-- Claim C6: for every valid state, `calcExitPupil` returns
`telDiameter / calcMagnification`, where the magnification is recomputed
from the fields current at the time of the call — after replacing the
eyepiece focal length by a new value `v`, the exit pupil is computed from
`v`, not from any stale value — and in particular for `d = 200`,
`f = 1000`, `e = 10`, `b = 1`, `r = 1` it returns exactly `2`. -/
theorem C6_exitPupil (t : TelescopeCalc) (_h : Valid t) :
    calcExitPupil t = t.telDiameter / calcMagnification t ∧
    (∀ v : ℚ, 0 < v →
      calcExitPupil (applyOp t (.setEyepiece v)) =
        t.telDiameter / (t.barlowFactor * t.telFocalLength * t.focalReducerFactor / v)) ∧
    calcExitPupil ⟨200, 1000, 10, 1, 1⟩ = 2 := by
  refine ⟨rfl, fun v hv => ?_, by norm_num [calcExitPupil, calcMagnification]⟩
  simp [applyOp, setEpFocalLength, not_le.mpr hv, calcExitPupil, calcMagnification]

theorem C6_witness : calcExitPupil ⟨200, 1000, 10, 1, 1⟩ = 2 :=
  (C6_exitPupil ⟨200, 1000, 10, 1, 1⟩ (by decide)).2.2

/-- Claim C7: for every valid state, the focal-ratio computation returns
`barlowFactor * telFocalLength / telDiameter * focalReducerFactor`
(left associated exactly as in the source), and in particular for
`d = 200`, `f = 1000`, `b = 2`, `r = 1/2` (the eyepiece focal length does
not occur in the formula) it returns exactly `5`. -/
theorem C7_fNumberFormula (t : TelescopeCalc) (_h : Valid t) :
    calcFocalRatio t =
      t.barlowFactor * t.telFocalLength / t.telDiameter * t.focalReducerFactor ∧
    calcFocalRatio ⟨200, 1000, 10, 2, 1/2⟩ = 5 :=
  ⟨rfl, by norm_num [ TelescopeCalc.calcFocalRatio]⟩

theorem C7_witness : calcFocalRatio ⟨200, 1000, 10, 2, 1/2⟩ = 5 :=
  (C7_fNumberFormula ⟨200, 1000, 10, 2, 1/2⟩ (by norm_num [Valid])).2

/-- Claim C8: the three aperture-only computations satisfy
`calcLowerMagnificationLimit = telDiameter / 6`,
`calcUpperMagnificationLimit = 2 * telDiameter` and
`calcDawesLimit = 116 / telDiameter`; they depend on no field other than
`telDiameter` (two states sharing an aperture diameter give equal results,
all other fields arbitrary); the lower limit at `d = 200` equals `33.33`
to two decimals (distance at most `1/200` from `3333/100`), the upper
limit at `d = 200` equals `400`, and the Dawes limit at `d = 116` equals
exactly `1`. -/
theorem C8_aperture_only (t u : TelescopeCalc) (h : t.telDiameter = u.telDiameter) :
    calcLowerMagnificationLimit t = t.telDiameter / 6 ∧
    calcUpperMagnificationLimit t = 2 * t.telDiameter ∧
    calcDawesLimit t = 116 / t.telDiameter ∧
    calcLowerMagnificationLimit t = calcLowerMagnificationLimit u ∧
    calcUpperMagnificationLimit t = calcUpperMagnificationLimit u ∧
    calcDawesLimit t = calcDawesLimit u ∧
    |calcLowerMagnificationLimit ⟨200, 1, 1, 1, 1⟩ - 3333/100| ≤ 1/200 ∧
    calcUpperMagnificationLimit ⟨200, 1, 1, 1, 1⟩ = 400 ∧
    calcDawesLimit ⟨116, 1, 1, 1, 1⟩ = 1 := by
  refine ⟨rfl, rfl, rfl, ?_, ?_, ?_, ?_, ?_, ?_⟩
  · simp [calcLowerMagnificationLimit, h]
  · simp [calcUpperMagnificationLimit, h]
  · simp [calcDawesLimit, h]
  · norm_num [calcLowerMagnificationLimit, abs_le]
  · norm_num [calcUpperMagnificationLimit]
  · norm_num [calcDawesLimit]

theorem C8_witness :
    calcDawesLimit ⟨200, 1, 1, 1, 1⟩ = calcDawesLimit ⟨200, 9, 9, 9, 9⟩ ∧
    calcUpperMagnificationLimit ⟨200, 1, 1, 1, 1⟩ = 400 :=
  ⟨(C8_aperture_only ⟨200, 1, 1, 1, 1⟩ ⟨200, 9, 9, 9, 9⟩ rfl).2.2.2.2.2.1,
   (C8_aperture_only ⟨200, 1, 1, 1, 1⟩ ⟨200, 9, 9, 9, 9⟩ rfl).2.2.2.2.2.2.2.1⟩

/-- Claim C9: in the embedding every derived computation is a total pure
function of the state — it always returns a value, touches no field, and
two calls on the same state are the same term, so repeated calls agree
definitionally.  The substantive part proved here: under the invariant
every denominator that the source divides by (`epFocalLength`,
`telDiameter`, and the magnification inside `calcExitPupil`) is nonzero,
so no computation divides by zero, and all six results are strictly
positive rationals — in particular finite. -/
theorem C9_computations_safe (t : TelescopeCalc) (h : Valid t) :
    t.epFocalLength ≠ 0 ∧ t.telDiameter ≠ 0 ∧ calcMagnification t ≠ 0 ∧
    0 < calcMagnification t ∧ 0 < calcLowerMagnificationLimit t ∧
    0 < calcUpperMagnificationLimit t ∧ 0 < calcFocalRatio t ∧
    0 < calcExitPupil t ∧ 0 < calcDawesLimit t := by
  obtain ⟨hd, hf, he, hb, hr⟩ := h
  have hmag : 0 < calcMagnification t := div_pos (mul_pos (mul_pos hb hf) hr) he
  refine ⟨he.ne', hd.ne', hmag.ne', hmag, ?_, ?_, ?_, ?_, ?_⟩
  · exact div_pos hd (by norm_num)
  · exact mul_pos (by norm_num) hd
  · exact mul_pos (div_pos (mul_pos hb hf) hd) hr
  · exact div_pos hd hmag
  · exact div_pos (by norm_num) hd

theorem C9_witness : 0 < calcDawesLimit ⟨200, 1000, 10, 1, 1⟩ :=
  (C9_computations_safe ⟨200, 1000, 10, 1, 1⟩ (by decide)).2.2.2.2.2.2.2.2

/-- Claim C10: for every valid state the exit pupil and the focal ratio,
though defined independently in the source, satisfy the algebraic identity
`exitPupil * focalRatio = epFocalLength`, equivalently
`exitPupil = epFocalLength / focalRatio`. -/
theorem C10_exitPupil_fNumber_identity (t : TelescopeCalc) (h : Valid t) :
    calcExitPupil t * calcFocalRatio t = t.epFocalLength ∧
    calcExitPupil t = t.epFocalLength / calcFocalRatio t := by
  obtain ⟨hd, hf, he, hb, hr⟩ := h
  have hd' : t.telDiameter ≠ 0 := hd.ne'
  have hf' : t.telFocalLength ≠ 0 := hf.ne'
  have he' : t.epFocalLength ≠ 0 := he.ne'
  have hb' : t.barlowFactor ≠ 0 := hb.ne'
  have hr' : t.focalReducerFactor ≠ 0 := hr.ne'
  unfold calcExitPupil calcFocalRatio calcMagnification
  constructor
  · field_simp
  · rw [eq_div_iff (by positivity)]
    field_simp

theorem C10_witness :
    calcExitPupil ⟨200, 1000, 10, 1, 1⟩ * calcFocalRatio ⟨200, 1000, 10, 1, 1⟩ = 10 :=
  (C10_exitPupil_fNumber_identity ⟨200, 1000, 10, 1, 1⟩ (by decide)).1
